import Mathlib

/-!
Shallow embedding of the job scheduling core of the Mp3Downloader repository
(`models.py`, `db.py`, `job_manager.py`, `ytdlp_service.py`) and proofs about
the behaviour of this code.

Conventions of the embedding:
* Python floats (timestamps, progress percentages) are modelled as rationals.
* Python's `str` is Lean's `String`; `len` is `String.length` (both count
  Unicode code points).
* Python sets of ints are `Finset Int`; `set.add` is `insert`,
  `set.discard` is `Finset.erase`.
* A fallible Python call is an `Except PyErr` value; an exception that
  propagates is `.error`.
* `JobState` is a `@dataclass` in `models.py`.  Its generated `__init__`
  accepts exactly the declared fields — and `force_single` is NOT among
  them.  `create_job` nevertheless assigns `job.force_single = ...`
  dynamically, so on a live object the attribute may be present or absent.
  We model this dynamic attribute as `force_single : Option Bool`, where
  `none` means "attribute absent" (the state every `JobState.__init__` call
  produces) and `some b` means "attribute was assigned `b`".  Reading the
  attribute while it is `none` is Python's `AttributeError`.
-/

namespace Mp3DL

/-- One download item, from `models.py` `DownloadItem`
(fields and defaults as declared there). -/
structure DownloadItem where
  index : Int
  title : String
  url : String
  thumbnail : Option String := none
  status : String := "pending"
  progress : ℚ := 0
  error_msg : Option String := none
deriving DecidableEq

/-- A job's aggregate state, from `models.py` `JobState`
(fields and defaults as declared there).  `force_single` is not a dataclass
field; it models the presence/absence of the dynamically assigned attribute
of the same name (see the module docstring).  Its default `none` is the
state right after any `JobState(...)` construction. -/
structure JobState where
  id : String
  url : String
  status : String := "queued"
  created_at : ℚ := 0
  updated_at : ℚ := 0
  progress : ℚ := 0
  message : String := ""
  logs : List String := []
  output_dir : Option String := none
  zip_path : Option String := none
  playlist_title : Option String := none
  thumbnail_url : Option String := none
  total_items : Option Int := none
  current_item : Option Int := none
  current_item_progress : ℚ := 0
  cancel_requested : Bool := false
  download_items : List DownloadItem := []
  paused : Bool := false
  paused_items : Finset Int := ∅
  force_single : Option Bool := none
deriving DecidableEq

/-- Python exceptions that the modelled code can raise. -/
inductive PyErr where
  | attributeError (msg : String)
  | typeError (msg : String)
deriving DecidableEq

/-- One row of the `jobs` table, from `db.py` `init_db` (one field per
column; `download_items_json` holds the decoded JSON list, since
`item.to_dict` in `models.py` serialises every `DownloadItem` field and
`_row_to_job` reads them all back, JSON round-tripping is the identity on
the item record). -/
structure JobRow where
  id : String
  url : String
  status : String
  created_at : ℚ
  updated_at : ℚ
  progress : ℚ
  message : String
  output_dir : Option String
  zip_path : Option String
  playlist_title : Option String
  thumbnail_url : Option String
  total_items : Option Int
  current_item : Option Int
  current_item_progress : ℚ
  cancel_requested : Int
  paused : Int
  force_single : Int
  download_items_json : List DownloadItem
deriving DecidableEq

/-- `db.py` `save_job` (lines 57–81).  The tuple of SQL parameters
evaluates `job.force_single` (line 78); if the attribute is absent this
raises `AttributeError` before anything is written.  Note that neither
`job.logs` nor `job.paused_items` appears among the persisted columns. -/
def save_job (job : JobState) : Except PyErr JobRow :=
  match job.force_single with
  | none => .error (.attributeError "JobState object has no attribute force_single")
  | some fs => .ok {
      id := job.id
      url := job.url
      status := job.status
      created_at := job.created_at
      updated_at := job.updated_at
      progress := job.progress
      message := job.message
      output_dir := job.output_dir
      zip_path := job.zip_path
      playlist_title := job.playlist_title
      thumbnail_url := job.thumbnail_url
      total_items := job.total_items
      current_item := job.current_item
      current_item_progress := job.current_item_progress
      cancel_requested := if job.cancel_requested then 1 else 0
      paused := if job.paused then 1 else 0
      force_single := if fs then 1 else 0
      download_items_json := job.download_items }

/-- `JobManager._save_job` (`job_manager.py` lines 100–105): the save is
wrapped in try/except, a raised exception is printed and swallowed, so the
row reaches the database only when `db.save_job` succeeds. -/
def manager_save_job (job : JobState) : Option JobRow :=
  (save_job job).toOption

/-- The parameter names accepted by the dataclass-generated
`JobState.__init__` — exactly the fields declared in `models.py`
lines 67–85. -/
def jobStateInitParams : List String :=
  ["id", "url", "status", "created_at", "updated_at", "progress", "message",
   "logs", "output_dir", "zip_path", "playlist_title", "thumbnail_url",
   "total_items", "current_item", "current_item_progress",
   "cancel_requested", "download_items", "paused", "paused_items"]

/-- The keyword names `db.py` `_row_to_job` (lines 125–144) passes to the
`JobState(...)` constructor call. -/
def rowToJobKwargs : List String :=
  ["id", "url", "status", "created_at", "updated_at", "progress", "message",
   "output_dir", "zip_path", "playlist_title", "thumbnail_url",
   "total_items", "current_item", "current_item_progress",
   "cancel_requested", "download_items", "paused", "force_single"]

/-- The `JobState` value that the constructor call in `_row_to_job` would
produce if every keyword it passes were accepted: the fields listed in
`rowToJobKwargs` from the row (with the `or 0` / `or ""` coalescing of
db.py applied at the ℚ/String level, where it is the identity on the
modelled values), the rest at their dataclass defaults. -/
def row_to_job_fields (row : JobRow) : JobState :=
  { id := row.id
    url := row.url
    status := row.status
    created_at := row.created_at
    updated_at := row.updated_at
    progress := row.progress
    message := row.message
    output_dir := row.output_dir
    zip_path := row.zip_path
    playlist_title := row.playlist_title
    thumbnail_url := row.thumbnail_url
    total_items := row.total_items
    current_item := row.current_item
    current_item_progress := row.current_item_progress
    cancel_requested := row.cancel_requested ≠ 0
    download_items := row.download_items_json
    paused := row.paused ≠ 0
    force_single := some (row.force_single ≠ 0) }

/-- `db.py` `_row_to_job` (lines 107–145).  Python calls
`JobState(..., force_single=bool(row["force_single"]))`; the call succeeds
only if every keyword argument is a parameter of the generated
`__init__`, otherwise it raises
`TypeError: __init__() got an unexpected keyword argument`. -/
def row_to_job (row : JobRow) : Except PyErr JobState :=
  if rowToJobKwargs.all (fun k => jobStateInitParams.contains k) then
    .ok (row_to_job_fields row)
  else
    .error (.typeError "JobState.__init__ got an unexpected keyword argument force_single")

/-- `db.py` `load_all_jobs` (lines 93–97): converts every row, the first
exception propagates to the caller. -/
def load_all_jobs (rows : List JobRow) : Except PyErr (List JobState) :=
  rows.mapM row_to_job

/-- The per-job restore policy inside the loop of
`JobManager._load_jobs_from_db` (`job_manager.py` lines 87–96):
terminal jobs are kept as-is, `running`/`queued` jobs are reclassified to
`canceled` with the restart message, any other status is not added. -/
def restore_job (job : JobState) : Option JobState :=
  if job.status = "done" ∨ job.status = "error" ∨ job.status = "canceled" then
    some job
  else if job.status = "running" ∨ job.status = "queued" then
    some { job with status := "canceled", message := "服务重启，任务已取消" }
  else
    none

/-- `JobManager._load_jobs_from_db` (`job_manager.py` lines 83–98): the
whole body is wrapped in try/except; if `db.load_all_jobs()` raises, the
exception is printed and swallowed and the registry stays empty.
Returns the list of jobs placed into `self._jobs`. -/
def load_jobs_from_db (rows : List JobRow) : List JobState :=
  match load_all_jobs rows with
  | .error _ => []
  | .ok jobs => jobs.filterMap restore_job

/-! Log buffer, `JobManager._append_log` (`job_manager.py` lines 435–449). -/

/-- Python `line.rstrip("\n")`: remove all trailing newline characters. -/
def rstripNl (s : String) : String :=
  ⟨(s.data.reverse.dropWhile (fun c => c = '\n')).reverse⟩

/-- The line actually stored by `_append_log` once the trailing newlines are
stripped: `line[:2000] + "…"` when the line exceeds 2000 characters. -/
def stored_line (line : String) : String :=
  let line := rstripNl line
  if line.length > 2000 then ⟨line.data.take 2000⟩ ++ "…" else line

/-- `JobManager._append_log` (lines 435–449), as a function of the current
log list: strip trailing newlines, drop empty lines, truncate long lines
(`stored_line` bundles the strip and truncate steps of lines 437–443),
append, and keep only the last 400 entries (`logs[-400:]`). -/
def append_log (logs : List String) (line : String) : List String :=
  if rstripNl line = "" then logs
  else
    let logs := logs ++ [stored_line line]
    if logs.length > 400 then logs.drop (logs.length - 400) else logs

/-! Aggregate progress, `job_manager.py` lines 465–509. -/

/-- `JobManager._update_progress` (lines 465–475): overall progress from
`current_item` / `current_item_progress`; guarded by truthiness checks on
`total_items` and `current_item` (Python's `not x` is true for `None` and
`0`, and the `<= 0` disjunct covers the negatives). -/
def update_progress (job : JobState) : JobState :=
  match job.total_items, job.current_item with
  | some ti, some ci =>
      if ti ≤ 0 ∨ ci ≤ 0 then job
      else
        let item_idx : Int := min ci ti
        let item_pct : ℚ := max 0 (min 100 job.current_item_progress)
        let overall : ℚ := (((item_idx : ℚ) - 1) + item_pct / 100) / (ti : ℚ) * 100
        { job with progress := max job.progress (min 100 overall) }
  | _, _ => job

/-- The percentage the loop body of `_update_progress_from_items`
(lines 487–505) adds to `s` for one item.  `float(it.progress or 0)` is the
identity on our rational progress values (`0 or 0` is `0`). -/
def item_pct_for (it : DownloadItem) : ℚ :=
  if it.status = "done" ∨ it.status = "skipped" then 100
  else if it.status = "downloading" then max 0 (min 100 it.progress)
  else if it.status = "paused" then 0
  else if it.status = "error" then max 0 (min 100 it.progress)
  else max 0 (min 100 it.progress)

/-- `JobManager._update_progress_from_items` (lines 477–509): recompute the
aggregate from the items; `done_count` counts `done|skipped` items,
`active_pct` is the running maximum of the clamped percents of the
`downloading` items. -/
def update_progress_from_items (job : JobState) : JobState :=
  match job.total_items with
  | none => job
  | some ti =>
      if ti ≤ 0 then job
      else if job.download_items = [] then job
      else
        let total : Int := max 1 ti
        let s : ℚ := (job.download_items.map item_pct_for).sum
        let done_count : Int :=
          ((job.download_items.filter
            (fun it => it.status = "done" ∨ it.status = "skipped")).length : Int)
        let active_pct : ℚ :=
          (job.download_items.filter (fun it => it.status = "downloading")).foldl
            (fun a it => max a (max 0 (min 100 it.progress))) 0
        { job with
            progress := max job.progress (min 100 (s / (total : ℚ))),
            current_item := some (done_count + (if 0 < active_pct then 1 else 0)),
            current_item_progress := active_pct }

/-! The public registry operations, acting on one job (`job_manager.py`);
each takes the current wall-clock reading `now` for `time.time()`. -/

/-- `JobManager.cancel_job` (lines 194–218), effect on the found job.
(The subsequent `_terminate_process` call signals live subprocesses and
does not change the job record.) -/
def cancel_job (now : ℚ) (job : JobState) : JobState :=
  let j := { job with cancel_requested := true }
  let j :=
    if j.status = "queued" then { j with status := "canceled", message := "已取消" }
    else if j.status = "running" then { j with status := "canceling", message := "取消中..." }
    else j
  { j with updated_at := now }

/-- `JobManager.pause_job` (lines 220–237), effect on the found job:
set `paused`, demote `downloading` items to `paused`, recompute the
aggregate, stamp `updated_at`.  (Subprocess termination is state-free.) -/
def pause_job (now : ℚ) (job : JobState) : JobState :=
  let j := { job with
      paused := true,
      message := "已暂停",
      download_items := job.download_items.map
        (fun it => if it.status = "downloading" then { it with status := "paused" } else it) }
  let j := update_progress_from_items j
  { j with updated_at := now }

/-- `JobManager.resume_job` (lines 239–248), effect on the found job. -/
def resume_job (now : ℚ) (job : JobState) : JobState :=
  { job with paused := false, message := "继续下载", updated_at := now }

/-- `JobManager.pause_item` (lines 250–262), effect on the found job. -/
def pause_item (now : ℚ) (job : JobState) (item_index : Int) : JobState :=
  { job with
      paused_items := insert item_index job.paused_items,
      download_items := job.download_items.map
        (fun it =>
          if it.index = item_index ∧ it.status = "pending" then
            { it with status := "paused" }
          else it),
      updated_at := now }

/-- `JobManager.resume_item` (lines 264–276), effect on the found job:
`paused_items.discard(item_index)` and `paused → pending` for the items
with the matching index. -/
def resume_item (now : ℚ) (job : JobState) (item_index : Int) : JobState :=
  { job with
      paused_items := job.paused_items.erase item_index,
      download_items := job.download_items.map
        (fun it =>
          if it.index = item_index ∧ it.status = "paused" then
            { it with status := "pending" }
          else it),
      updated_at := now }

/-! Job creation (`job_manager.py` lines 109–182). -/

/-- The `JobState` built and registered by `JobManager.create_job`
(lines 109–128): the dataclass construction (all defaults, creation
message) followed by the dynamic assignment `job.force_single = ...`. -/
def create_job_job (now : ℚ) (job_id url : String) (force_single : Bool) : JobState :=
  let job : JobState :=
    { id := job_id, url := url, created_at := now, updated_at := now, message := "已创建任务" }
  { job with force_single := some force_single }

/-- The `DownloadItem` list built by `JobManager.create_job_with_urls`
(lines 151–162). -/
def items_from_urls (video_urls : List String) (video_titles video_thumbnails : Option (List String)) :
    List DownloadItem :=
  (List.range video_urls.length).map (fun (idx : Nat) =>
    { index := Int.ofNat idx + 1
      title :=
        match video_titles with
        | some ts => if h : idx < ts.length then ts.get ⟨idx, h⟩ else "Track " ++ toString (idx + 1)
        | none => "Track " ++ toString (idx + 1)
      thumbnail :=
        match video_thumbnails with
        | some ts => if h : idx < ts.length then some (ts.get ⟨idx, h⟩) else none
        | none => none
      url := video_urls.getD idx ""
      status := "pending" })

/-- The `JobState` built and registered by `JobManager.create_job_with_urls`
(lines 136–176): a plain dataclass construction — no dynamic
`force_single` assignment happens on this path, so the attribute stays
absent (`none`). -/
def create_job_with_urls_job (now : ℚ) (job_id playlist_url : String)
    (video_urls : List String) (video_titles video_thumbnails : Option (List String)) : JobState :=
  { id := job_id
    url := playlist_url
    created_at := now
    updated_at := now
    message := "已创建任务 (选中 " ++ toString video_urls.length ++ " 首)"
    total_items := some (video_urls.length : Int)
    download_items := items_from_urls video_urls video_titles video_thumbnails }

/-! URL classification, `ytdlp_service.py` lines 17–44. -/

/-- Whether `needle` occurs as a contiguous substring of `hay`
(Python's `needle in hay`). -/
def contains_substr (hay needle : String) : Bool :=
  (List.range (hay.data.length + 1)).any
    (fun i => decide ((hay.data.drop i).take needle.data.length = needle.data))

/-- Whether the regex `(^|[?&])list=` (case-insensitive) matches somewhere
in `url` (`_PLAYLIST_URL_RE.search`): an occurrence of `list=` — compared
on the lowercased text — at the start or right after `?` or `&`. -/
def playlist_re_search (url : String) : Bool :=
  let cs := url.toLower.data
  (List.range cs.length).any (fun i =>
    decide ((cs.drop i).take 5 = "list=".data) &&
      (decide (i = 0) || decide (cs.getD (i - 1) ' ' = '?') || decide (cs.getD (i - 1) ' ' = '&')))

/-- `ytdlp_service.py` `looks_like_playlist_url` (lines 28–44). -/
def looks_like_playlist_url (url : String) : Bool :=
  if url = "" then false
  else if playlist_re_search url then true
  else if contains_substr url "/playlist" then true
  else false

/-! The head of the background execution routine `JobManager._run_job`
(`job_manager.py` lines 577–636), up to the point where the execution mode
is decided.  Filesystem directory creation is state-free for the job
record apart from `output_dir`. -/

/-- What the `_run_job` thread has done by the time line 623 is reached
(or aborted earlier). -/
inductive RunJobOutcome where
  /-- `yt-dlp` binary missing (lines 599–606): job marked `error`. -/
  | errNoYtdlp (job : JobState)
  /-- An uncaught exception killed the daemon thread; the job record is
  left exactly as it was at that moment. -/
  | threadCrash (job : JobState) (e : PyErr)
  /-- Reached the dispatch decision: job (now `running`, `output_dir`
  set) and the computed `is_playlist` flag. -/
  | proceed (job : JobState) (is_playlist : Bool)
deriving DecidableEq

/-- The job record carried by a `RunJobOutcome`. -/
def RunJobOutcome.job : RunJobOutcome → JobState
  | .errNoYtdlp j => j
  | .threadCrash j _ => j
  | .proceed j _ => j

/-- `JobManager._run_job` head (lines 591–623): unconditionally set the
status to `running` (line 595), error out if the `yt-dlp` binary is
missing, record the output directory, then evaluate
`job.force_single` (line 623) — an `AttributeError` if the attribute is
absent — to decide `is_playlist`. -/
def run_job_head (ytdlp_exists : Bool) (now : ℚ) (jobs_dir : String) (job : JobState) :
    RunJobOutcome :=
  let j := { job with status := "running", updated_at := now }
  if ¬ ytdlp_exists then
    .errNoYtdlp { j with status := "error", message := "找不到 yt-dlp", updated_at := now }
  else
    let j := { j with output_dir := some (jobs_dir ++ "/" ++ j.id), updated_at := now }
    match j.force_single with
    | none => .threadCrash j (.attributeError "JobState object has no attribute force_single")
    | some fs => .proceed j (if fs then false else looks_like_playlist_url j.url)

/-! The whole-collection download path `JobManager._execute_download`
(`job_manager.py` lines 1045–1157).  The per-line output processing
(progress parsing into the job record) is orthogonal to the facts proved
here and is summarised by the environment outcome `DownloadRun`. -/

/-- The environment's behaviour for one `_execute_download` call:
whether `Popen` succeeds, the subprocess exit code, and whether ZIP
packaging succeeds afterwards. -/
structure DownloadRun where
  spawn_ok : Bool
  rc : Int
  zip_ok : Bool
deriving DecidableEq

/-- `JobManager._execute_download` (lines 1045–1157): final job record and
the number of download subprocesses spawned by the call.  `Popen` is
invoked unconditionally (line 1051) — there is no check of
`cancel_requested` or of the job status before spawning. -/
def execute_download (run : DownloadRun) (now : ℚ) (zip_path : String) (job : JobState) :
    JobState × Nat :=
  if ¬ run.spawn_ok then
    ({ job with status := "error", message := "启动下载失败", updated_at := now }, 0)
  else if run.rc ≠ 0 then
    (if job.cancel_requested then
        { job with status := "canceled", message := "已取消", updated_at := now }
      else
        { job with status := "error",
                   message := "下载失败 (退出码 " ++ toString run.rc ++ ")，请检查是否安装了 ffmpeg",
                   updated_at := now }, 1)
  else if ¬ run.zip_ok then
    ({ job with status := "error", message := "打包 ZIP 失败", updated_at := now }, 1)
  else
    ({ job with status := "done", progress := 100, message := "完成",
                zip_path := some zip_path, updated_at := now }, 1)

/-! The tail of the worker loop body in
`JobManager._run_selected_downloads` (`job_manager.py` lines 779–797):
what a worker does, under the state lock, with the outcome of one item's
single-item download. -/

/-- Worker outcome handling (lines 779–797), as a function of the success
flag returned by `_execute_single_download`, the item's 0-based queue
index `idx`, the shared FIFO queue `q`, and the job record `j`.  Returns
the updated job (aggregate recomputed by `_update_progress_from_items`,
line 796, in every case) and the updated queue (`q.append(idx)` happens
only in the re-enqueue branch, line 793). -/
def worker_finish (now : ℚ) (success : Bool) (idx : Nat) (q : List Nat) (j : JobState) :
    JobState × List Nat :=
  let step : JobState × List Nat :=
    if idx < j.download_items.length then
      if success then
        ({ j with download_items :=
            j.download_items.modify (fun it => { it with status := "done", progress := 100 }) idx },
         q)
      else if j.cancel_requested then
        ({ j with download_items :=
            j.download_items.modify (fun it => { it with status := "skipped" }) idx },
         q)
      else if j.paused ∨ (Int.ofNat idx + 1) ∈ j.paused_items then
        ({ j with download_items :=
            j.download_items.modify (fun it => { it with status := "paused" }) idx },
         q ++ [idx])
      else
        ({ j with download_items :=
            j.download_items.modify (fun it => { it with status := "error" }) idx },
         q)
    else (j, q)
  ({ update_progress_from_items step.1 with updated_at := now }, step.2)

/-! Packaging, `JobManager._package_zip` (`job_manager.py` lines 511–538).
The filesystem is modelled as a tree of named files and directories. -/

/-- A filesystem entry: a file or a directory with its children. -/
inductive FsTree where
  | file (name : String)
  | dir (name : String) (children : List FsTree)

/-- `Path.is_dir()`. -/
def FsTree.isDir : FsTree → Bool
  | .file _ => false
  | .dir _ _ => true

/-- `Path.suffix` of a file name (pathlib): the text from the last dot to
the end, provided that dot is neither the first nor the last character;
otherwise the empty string. -/
def path_suffix (name : String) : String :=
  let rev := name.data.reverse
  let after := rev.takeWhile (fun c => c ≠ '.')
  if after.length = rev.length then ""
  else if after.length = 0 then ""
  else if after.length = rev.length - 1 then ""
  else ⟨'.' :: after.reverse⟩

mutual

/-- The names of the `.mp3` files below a tree, in traversal order —
`payload_root.rglob("*")` filtered by
`file_path.is_file() and file_path.suffix.lower() == ".mp3"`
(lines 531–532). -/
def mp3_files : FsTree → List String
  | .file n => if (path_suffix n).toLower = ".mp3" then [n] else []
  | .dir _ children => mp3_files_list children

/-- `mp3_files` over a list of children. -/
def mp3_files_list : List FsTree → List String
  | [] => []
  | t :: ts => mp3_files t ++ mp3_files_list ts

end

/-- The archive path chosen by `_package_zip` (lines 518–519):
`JOBS_DIR / job_id / "mp3.zip"`. -/
def zip_path_for (jobs_dir job_id : String) : String :=
  jobs_dir ++ "/" ++ job_id ++ "/mp3.zip"

/-- The payload-root choice of `_package_zip` (lines 521–523):
`playlist_folders[0]` when the output root has exactly one subdirectory,
otherwise the output root itself. -/
def payload_root (output_dir : FsTree) : FsTree :=
  match output_dir with
  | .file _ => output_dir
  | .dir _ children =>
      match children.filter FsTree.isDir with
      | [d] => d
      | _ => output_dir

/-- `JobManager._package_zip` (lines 511–538): the archive path (keyed by
the job id) and the list of `.mp3` files written into the archive — all
`.mp3` files below the chosen payload root. -/
def package_zip (jobs_dir job_id : String) (output_dir : FsTree) : String × List String :=
  (zip_path_for jobs_dir job_id, mp3_files (payload_root output_dir))

/-! Theorems.  Each claim-level theorem is preceded by a doc comment naming
the claim it settles. -/

/-- A persisted row for a job that was `running` when the process stopped
(all other columns at their schema defaults). -/
def runningRow : JobRow :=
  { id := "j1", url := "https://www.youtube.com/watch?v=abc", status := "running",
    created_at := 10, updated_at := 20, progress := 37, message := "",
    output_dir := none, zip_path := none, playlist_title := none, thumbnail_url := none,
    total_items := none, current_item := none, current_item_progress := 0,
    cancel_requested := 0, paused := 0, force_single := 0, download_items_json := [] }

/-- C1: the claim says a persisted `running` job is restored into the
registry with status reclassified to `canceled`.  In the code this never
happens: `_row_to_job` passes the keyword `force_single` to the
`JobState` dataclass constructor, which does not declare that field, so
every row conversion raises `TypeError`; `_load_jobs_from_db` swallows the
exception and the registry comes up empty — the `running` job is not
present at all (with any status). -/
theorem C1_running_job_lost_on_reload :
    row_to_job runningRow =
      .error (.typeError "JobState.__init__ got an unexpected keyword argument force_single") ∧
    load_jobs_from_db [runningRow] = [] := by
  constructor <;> rfl

/-- C3: every job built by `create_job_with_urls` carries no
`force_single` attribute; persisting it raises `AttributeError` inside
`db.save_job` (swallowed by `_save_job`, so no row is ever written), and
the `_run_job` thread, after unconditionally setting the status to
`running`, crashes with `AttributeError` at the `job.force_single` read
(line 623) before dispatching any item — leaving the job in status
`running`. -/
theorem C3_with_urls_jobs_crash_on_force_single (now now2 : ℚ)
    (job_id playlist_url jobs_dir : String) (video_urls : List String)
    (video_titles video_thumbnails : Option (List String)) :
    (create_job_with_urls_job now job_id playlist_url video_urls video_titles
        video_thumbnails).force_single = none ∧
    save_job (create_job_with_urls_job now job_id playlist_url video_urls video_titles
        video_thumbnails) =
      .error (.attributeError "JobState object has no attribute force_single") ∧
    manager_save_job (create_job_with_urls_job now job_id playlist_url video_urls
        video_titles video_thumbnails) = none ∧
    run_job_head true now2 jobs_dir
        (create_job_with_urls_job now job_id playlist_url video_urls video_titles
          video_thumbnails) =
      .threadCrash
        { create_job_with_urls_job now job_id playlist_url video_urls video_titles
            video_thumbnails with
          status := "running", updated_at := now2,
          output_dir := some (jobs_dir ++ "/" ++ job_id) }
        (.attributeError "JobState object has no attribute force_single") := by
  refine ⟨rfl, rfl, rfl, ?_⟩
  rfl

/-- A job with a non-empty log buffer and a non-empty set of individually
paused item indices, saved from the `create_job` path (so the dynamic
`force_single` attribute is present and `db.save_job` succeeds). -/
def c4_job : JobState :=
  { id := "j4", url := "https://www.youtube.com/watch?v=abc", status := "done",
    created_at := 1, updated_at := 2, progress := 100, message := "完成",
    logs := ["[download] 100% of 3.45MiB"],
    total_items := some 1, paused_items := {2},
    download_items := [{ index := 1, title := "t", url := "v", status := "done", progress := 100 }],
    force_single := some false }

/-- C4: the claim says every Job round-trips losslessly through
save/load, including the log buffer and the paused-item-index set.  It
fails on the code: `save_job` persists neither `logs` nor `paused_items`
(the schema has no such columns), and loading the written row back raises
`TypeError` (`force_single` keyword passed to a dataclass without that
field), so `load` returns no job at all — even the hypothetical
field-wise reconstruction would come back with an empty log buffer and an
empty paused-item set. -/
theorem C4_roundtrip_fails :
    ∃ r, save_job c4_job = .ok r ∧
      row_to_job r =
        .error (.typeError "JobState.__init__ got an unexpected keyword argument force_single") ∧
      (row_to_job_fields r).logs = [] ∧
      (row_to_job_fields r).paused_items = ∅ ∧
      c4_job.logs ≠ [] ∧
      c4_job.paused_items ≠ ∅ := by
  refine ⟨_, rfl, rfl, rfl, rfl, by decide, by decide⟩

/-- Helper: `_update_progress` never lowers `progress`. -/
theorem update_progress_mono (job : JobState) :
    job.progress ≤ (update_progress job).progress := by
  unfold update_progress
  cases h1 : job.total_items with
  | none => exact le_refl _
  | some ti =>
    cases h2 : job.current_item with
    | none => exact le_refl _
    | some ci =>
      dsimp only
      split
      · exact le_refl _
      · exact le_max_left _ _

/-- Helper: `_update_progress_from_items` never lowers `progress`. -/
theorem update_progress_from_items_mono (job : JobState) :
    job.progress ≤ (update_progress_from_items job).progress := by
  unfold update_progress_from_items
  cases h1 : job.total_items with
  | none => exact le_refl _
  | some ti =>
    dsimp only
    split
    · exact le_refl _
    · split
      · exact le_refl _
      · exact le_max_left _ _

/-- C2: across the registry operations and the two progress
recomputations, a job's aggregate `progress` never decreases — whenever a
recompute would produce a lower value, the stored value is kept (the
maximum of old and new is taken). -/
theorem C2_progress_monotone (now : ℚ) (job : JobState) (item_index : Int) :
    job.progress ≤ (update_progress job).progress ∧
    job.progress ≤ (update_progress_from_items job).progress ∧
    job.progress ≤ (cancel_job now job).progress ∧
    job.progress ≤ (pause_job now job).progress ∧
    job.progress ≤ (resume_job now job).progress ∧
    job.progress ≤ (pause_item now job item_index).progress ∧
    job.progress ≤ (resume_item now job item_index).progress := by
  refine ⟨update_progress_mono job, update_progress_from_items_mono job, ?_, ?_, le_refl _, le_refl _, le_refl _⟩
  · unfold cancel_job
    dsimp only
    split
    · exact le_refl _
    · split <;> exact le_refl _
  · unfold pause_job
    dsimp only
    exact update_progress_from_items_mono _

/-- The per-item percentage as the claim C5 words it (for comparison with
the code): `done|skipped` → 100, `downloading` → the item's own stored
percent, and every other status — including `paused` and `error` — the
item's stored percent. -/
def claim5_item_pct (it : DownloadItem) : ℚ :=
  if it.status = "done" ∨ it.status = "skipped" then 100
  else if it.status = "downloading" then it.progress
  else it.progress

/-- The aggregate the claim C5 describes: sum the per-item percentages,
divide by the total item count, take the max against the previous
aggregate. -/
def claim5_aggregate (job : JobState) (ti : Int) : ℚ :=
  max job.progress ((job.download_items.map claim5_item_pct).sum / (ti : ℚ))

/-- A running job whose single item is `paused` with a stored percent of
50. -/
def c5_job : JobState :=
  { id := "j5", url := "https://www.youtube.com/playlist?list=PL1", status := "running",
    total_items := some 1,
    download_items := [{ index := 1, title := "t", url := "v", status := "paused", progress := 50 }] }

/-- C5 counterexample: on a job whose single item is `paused` with stored
percent 50, the code's recomputation yields aggregate 0 — a `paused` item
contributes 0, not its stored percent — while the formula the claim
states yields 50. -/
theorem C5_counterexample :
    (update_progress_from_items c5_job).progress = 0 ∧
    claim5_aggregate c5_job 1 = 50 ∧ (0 : ℚ) ≠ 50 := by
  refine ⟨?_, ?_, by norm_num⟩ <;>
    · simp only [update_progress_from_items, claim5_aggregate, claim5_item_pct, item_pct_for,
        c5_job, List.map, List.sum_cons, List.sum_nil, String.reduceEq, or_self, if_false,
        if_true, reduceIte]
      norm_num

/-- C5 (amended): for a job with a positive `total_items` and a non-empty
item list, the recomputation maps `done|skipped` to 100, `downloading` to
the item's stored percent clamped to [0,100], `paused` to 0 (NOT the
stored percent), and every other status (`error` included) to the stored
percent clamped to [0,100]; it sums these, divides by `total_items`,
clamps at 100, and stores the maximum of that quotient and the previous
aggregate. -/
theorem C5_amended (job : JobState) (t : Int) (h1 : job.total_items = some t)
    (h2 : 0 < t) (h3 : job.download_items ≠ []) :
    (update_progress_from_items job).progress =
      max job.progress (min 100
        ((job.download_items.map (fun it =>
            if it.status = "done" ∨ it.status = "skipped" then (100 : ℚ)
            else if it.status = "downloading" then max 0 (min 100 it.progress)
            else if it.status = "paused" then 0
            else max 0 (min 100 it.progress))).sum / (t : ℚ))) := by
  have hfun : item_pct_for = (fun it =>
      if it.status = "done" ∨ it.status = "skipped" then (100 : ℚ)
      else if it.status = "downloading" then max 0 (min 100 it.progress)
      else if it.status = "paused" then 0
      else max 0 (min 100 it.progress)) := by
    funext it
    unfold item_pct_for
    split_ifs <;> rfl
  have hmax : max 1 t = t := max_eq_right (by omega)
  unfold update_progress_from_items
  rw [h1]
  dsimp only
  rw [if_neg (by omega), if_neg h3]
  dsimp only
  rw [hmax, hfun]

/-- Witness for the amended C5 theorem at a concrete job: `c5_job` has
`total_items = some 1 > 0` and a non-empty item list, and the recomputed
aggregate is the claimed clamped quotient (here 0, from its single
`paused` item). -/
theorem C5_amended_witness :
    c5_job.total_items = some 1 ∧ (0 : Int) < 1 ∧ c5_job.download_items ≠ [] ∧
    (update_progress_from_items c5_job).progress =
      max c5_job.progress (min 100
        ((c5_job.download_items.map (fun it =>
            if it.status = "done" ∨ it.status = "skipped" then (100 : ℚ)
            else if it.status = "downloading" then max 0 (min 100 it.progress)
            else if it.status = "paused" then 0
            else max 0 (min 100 it.progress))).sum / ((1 : Int) : ℚ))) :=
  ⟨rfl, by norm_num, by decide, C5_amended c5_job 1 rfl (by norm_num) (by decide)⟩

/-- C6: the claim says that cancelling a `queued` job makes the status
`canceled` immediately and that thereafter no download subprocess is ever
spawned and the status never leaves `canceled`.  The first half holds,
but the rest fails on the code: the background thread started at creation
sets the status to `running` unconditionally (`_run_job` line 595, no
check of `cancel_requested` or of the current status), and the
whole-collection path spawns its `yt-dlp` subprocess unconditionally
(`_execute_download` line 1051); with exit code 0 the job even finishes
as `done`.  Evaluated here on a job cancelled while still `queued`: one
subprocess is spawned after the cancellation and the final status is
`done`, not `canceled`. -/
theorem C6_cancel_queued_then_spawn :
    (create_job_job 0 "jobc6" "https://www.youtube.com/watch?v=abc&list=PL1" false).status
        = "queued" ∧
    (cancel_job 1 (create_job_job 0 "jobc6" "https://www.youtube.com/watch?v=abc&list=PL1"
        false)).status = "canceled" ∧
    (cancel_job 1 (create_job_job 0 "jobc6" "https://www.youtube.com/watch?v=abc&list=PL1"
        false)).cancel_requested = true ∧
    (run_job_head true 2 "JOBS"
        (cancel_job 1 (create_job_job 0 "jobc6" "https://www.youtube.com/watch?v=abc&list=PL1"
          false))).job.status = "running" ∧
    (execute_download ⟨true, 0, true⟩ 3 (zip_path_for "JOBS" "jobc6")
        (run_job_head true 2 "JOBS"
          (cancel_job 1 (create_job_job 0 "jobc6"
            "https://www.youtube.com/watch?v=abc&list=PL1" false))).job).2 = 1 ∧
    (execute_download ⟨true, 0, true⟩ 3 (zip_path_for "JOBS" "jobc6")
        (run_job_head true 2 "JOBS"
          (cancel_job 1 (create_job_job 0 "jobc6"
            "https://www.youtube.com/watch?v=abc&list=PL1" false))).job).1.status = "done" := by
  refine ⟨rfl, rfl, rfl, rfl, rfl, rfl⟩

/-- C7: for a worker-pool item whose single-item download has completed,
the outcome is classified in this precedence order — success makes the
item `done` with progress 100; otherwise `cancelRequested` makes it
`skipped`; otherwise whole-job pause or membership of this item's 1-based
index in the paused-items set makes it `paused` and appends the 0-based
index back onto the work queue; otherwise it becomes `error` — and in
every case the aggregate progress is recomputed from the items
afterwards. -/
theorem C7_worker_outcome (now : ℚ) (success : Bool) (idx : Nat) (q : List Nat) (j : JobState)
    (h : idx < j.download_items.length) :
    worker_finish now success idx q j =
      (let it := j.download_items.get ⟨idx, h⟩
       let newIt : DownloadItem :=
         if success then { it with status := "done", progress := 100 }
         else if j.cancel_requested then { it with status := "skipped" }
         else if j.paused ∨ (Int.ofNat idx + 1) ∈ j.paused_items then
           { it with status := "paused" }
         else { it with status := "error" }
       let jobAfter : JobState :=
         { j with download_items := j.download_items.set idx newIt }
       ({ update_progress_from_items jobAfter with updated_at := now },
        if ¬ success ∧ ¬ j.cancel_requested ∧ (j.paused ∨ (Int.ofNat idx + 1) ∈ j.paused_items)
        then q ++ [idx] else q)) := by
  unfold worker_finish
  dsimp only
  rw [if_pos h]
  simp only [List.modify_eq_set_get _ h]
  split_ifs <;> simp_all

/-- A running selective job with one `downloading` item, for the C7
witness. -/
def c7_job : JobState :=
  { id := "j7", url := "https://www.youtube.com/playlist?list=PL2", status := "running",
    total_items := some 1,
    download_items := [{ index := 1, title := "t", url := "v", status := "downloading", progress := 40 }] }

/-- Witness for C7 at a concrete input: one item, index in range, a
successful download. -/
theorem C7_worker_outcome_witness :
    0 < c7_job.download_items.length ∧
    worker_finish 5 true 0 [] c7_job =
      (let it := c7_job.download_items.get ⟨0, by decide⟩
       let newIt : DownloadItem :=
         if true then { it with status := "done", progress := 100 }
         else if c7_job.cancel_requested then { it with status := "skipped" }
         else if c7_job.paused ∨ (Int.ofNat 0 + 1) ∈ c7_job.paused_items then
           { it with status := "paused" }
         else { it with status := "error" }
       let jobAfter : JobState :=
         { c7_job with download_items := c7_job.download_items.set 0 newIt }
       ({ update_progress_from_items jobAfter with updated_at := 5 },
        if ¬ (true : Bool) ∧ ¬ c7_job.cancel_requested ∧
            (c7_job.paused ∨ (Int.ofNat 0 + 1) ∈ c7_job.paused_items)
        then [] ++ [0] else [])) :=
  ⟨by decide, C7_worker_outcome 5 true 0 [] c7_job (by decide)⟩

/-- A 2001-character line (no newlines). -/
def c8_long_line : String := ⟨List.replicate 2001 'a'⟩

/-- Helper: the length of an appended string is the sum of the lengths. -/
theorem string_length_append (a b : String) : (a ++ b).length = a.length + b.length := by
  simp

/-- Helper: `c8_long_line` has 2001 characters. -/
theorem c8_long_line_length : c8_long_line.length = 2001 := by
  show (List.replicate 2001 'a').length = 2001
  exact List.length_replicate 2001 'a'

/-- Helper: trailing-newline stripping does nothing to a run of `'a'`s. -/
theorem rstripNl_c8 : rstripNl c8_long_line = c8_long_line := by
  unfold rstripNl c8_long_line
  rw [List.reverse_replicate]
  rw [show List.dropWhile (fun c => c = '\n') (List.replicate 2001 'a')
        = List.replicate 2001 'a' by
      rw [List.dropWhile_eq_self_iff]
      intro hl
      simp only [List.get_eq_getElem, List.getElem_replicate]
      decide]
  rw [List.reverse_replicate]

/-- Helper: the stored form of the 2001-character line is 2000 `'a'`s plus
the ellipsis character. -/
theorem stored_line_c8 :
    stored_line c8_long_line = (⟨List.replicate 2000 'a'⟩ : String) ++ "…" := by
  unfold stored_line
  rw [rstripNl_c8]
  rw [if_pos (by rw [c8_long_line_length]; omega)]
  have h : c8_long_line.data.take 2000 = List.replicate 2000 'a' := by
    show (List.replicate 2001 'a').take 2000 = List.replicate 2000 'a'
    rw [List.take_replicate]
    congr 1
  rw [h]

/-- Helper: appending the 2001-character line to an empty buffer yields a
one-entry buffer holding the truncated line. -/
theorem append_log_c8 :
    append_log [] c8_long_line = [(⟨List.replicate 2000 'a'⟩ : String) ++ "…"] := by
  unfold append_log
  rw [if_neg (by
    rw [rstripNl_c8]
    intro h
    have h1 := c8_long_line_length
    rw [h] at h1
    exact absurd h1 (by decide))]
  dsimp only
  rw [if_neg (by simp)]
  rw [stored_line_c8]
  simp

/-- C8 counterexample: appending a 2001-character line to an empty buffer
stores an entry of 2001 characters — the code truncates to
`line[:2000] + "…"`, which is 2001 characters long, violating the claimed
2000-character bound on stored entries. -/
theorem C8_counterexample :
    ¬ (∀ e ∈ append_log [] c8_long_line, e.length ≤ 2000) := by
  rw [append_log_c8]
  intro hall
  have h := hall _ (List.mem_singleton_self _)
  rw [string_length_append] at h
  have h1 : (⟨List.replicate 2000 'a'⟩ : String).length = 2000 :=
    List.length_replicate 2000 'a'
  have h2 : ("…" : String).length = 1 := rfl
  omega

/-- Helper: every line `_append_log` stores is at most 2001 characters:
up to 2000 kept characters plus the one-character ellipsis. -/
theorem stored_line_length_le (line : String) : (stored_line line).length ≤ 2001 := by
  unfold stored_line
  dsimp only
  split
  · rw [string_length_append]
    have h1 : ("…" : String).length = 1 := rfl
    have h2 : (⟨(rstripNl line).data.take 2000⟩ : String).length ≤ 2000 := by
      show ((rstripNl line).data.take 2000).length ≤ 2000
      rw [List.length_take]
      exact min_le_left _ _
    omega
  · omega

/-- C8 (amended): after each append the buffer holds at most 400 entries;
every stored entry is at most 2001 characters long (at most 2000 kept
characters plus a one-character truncation ellipsis — not 2000 as
claimed); and the oldest entries are evicted first: the new buffer is
either unchanged (blank line) or a suffix of the old buffer extended with
the processed line, so it always holds the most recent lines in arrival
order. -/
theorem C8_amended (logs : List String) (line : String)
    (hcount : logs.length ≤ 400) (hall : ∀ e ∈ logs, e.length ≤ 2001) :
    (append_log logs line).length ≤ 400 ∧
    (∀ e ∈ append_log logs line, e.length ≤ 2001) ∧
    (append_log logs line = logs ∨
      append_log logs line <:+ logs ++ [stored_line line]) := by
  have hmem : ∀ e ∈ logs ++ [stored_line line], e.length ≤ 2001 := by
    intro e he
    rcases List.mem_append.mp he with h | h
    · exact hall e h
    · rw [List.mem_singleton.mp h]
      exact stored_line_length_le line
  unfold append_log
  dsimp only
  split
  · exact ⟨hcount, hall, Or.inl rfl⟩
  · split
    · refine ⟨?_, ?_, Or.inr (List.drop_suffix _ _)⟩
      · simp only [List.length_drop]
        omega
      · intro e he
        exact hmem e (List.mem_of_mem_drop he)
    · next h400 =>
        exact ⟨by omega, hmem, Or.inr (List.suffix_refl _)⟩

/-- Witness for the amended C8 theorem at a concrete buffer and line. -/
theorem C8_amended_witness :
    (["x"] : List String).length ≤ 400 ∧ (∀ e ∈ (["x"] : List String), e.length ≤ 2001) ∧
    ((append_log ["x"] "y").length ≤ 400 ∧
     (∀ e ∈ append_log ["x"] "y", e.length ≤ 2001) ∧
     (append_log ["x"] "y" = ["x"] ∨ append_log ["x"] "y" <:+ ["x"] ++ [stored_line "y"])) :=
  ⟨by decide, by decide, C8_amended ["x"] "y" (by decide) (by decide)⟩

mutual

/-- The names of all files below a tree, in traversal order
(`rglob("*")` restricted to files). -/
def all_files : FsTree → List String
  | .file n => [n]
  | .dir _ children => all_files_list children

/-- `all_files` over a list of children. -/
def all_files_list : List FsTree → List String
  | [] => []
  | t :: ts => all_files t ++ all_files_list ts

end

mutual

/-- Helper: the `.mp3` selection is exactly the filter of all files by the
lowercased-suffix test. -/
theorem mp3_files_eq_filter (t : FsTree) :
    mp3_files t = (all_files t).filter (fun n => (path_suffix n).toLower = ".mp3") := by
  cases t with
  | file n =>
      by_cases h : (path_suffix n).toLower = ".mp3" <;>
        simp [mp3_files, all_files, List.filter_singleton, h]
  | dir nm children =>
      rw [mp3_files, all_files]
      exact mp3_files_list_eq_filter children

/-- Helper: list form of `mp3_files_eq_filter`. -/
theorem mp3_files_list_eq_filter (ts : List FsTree) :
    mp3_files_list ts =
      (all_files_list ts).filter (fun n => (path_suffix n).toLower = ".mp3") := by
  cases ts with
  | nil => rfl
  | cons t ts =>
      rw [mp3_files_list, all_files_list, List.filter_append]
      rw [mp3_files_eq_filter t, mp3_files_list_eq_filter ts]

end

/-- C9: the packaging step picks the payload root as the unique
subdirectory of the job's output root when there is exactly one, and as
the output root itself otherwise; it writes, into a single archive whose
path is determined by the job id (`JOBS_DIR/<job_id>/mp3.zip`), exactly
the files below the payload root whose (lowercased) path suffix is
`.mp3`. -/
theorem C9_packaging (jobs_dir job_id nm : String) (children : List FsTree) :
    (∀ d, children.filter FsTree.isDir = [d] →
      payload_root (.dir nm children) = d) ∧
    ((children.filter FsTree.isDir).length ≠ 1 →
      payload_root (.dir nm children) = .dir nm children) ∧
    (package_zip jobs_dir job_id (.dir nm children)).1 =
      jobs_dir ++ "/" ++ job_id ++ "/mp3.zip" ∧
    (package_zip jobs_dir job_id (.dir nm children)).2 =
      (all_files (payload_root (.dir nm children))).filter
        (fun n => (path_suffix n).toLower = ".mp3") := by
  refine ⟨?_, ?_, rfl, mp3_files_eq_filter _⟩
  · intro d hd
    rw [payload_root, hd]
  · intro hlen
    rw [payload_root]
    cases hd : children.filter FsTree.isDir with
    | nil => rfl
    | cons x xs =>
        cases xs with
        | nil => exact absurd (by rw [hd]; rfl) hlen
        | cons y ys => rfl

/-- A one-subdirectory output root for the C9 witness. -/
def c9_sub : FsTree := .dir "Album" [.file "01 - Song.mp3", .file "cover.jpg"]

/-- Witness for C9 at concrete trees: an output root with exactly one
subdirectory uses that subdirectory as payload root; an empty output root
uses itself; the archive list for the first case is the `.mp3` filter of
the payload root's files. -/
theorem C9_packaging_witness :
    payload_root (.dir "out" [c9_sub]) = c9_sub ∧
    payload_root (.dir "out" []) = .dir "out" [] ∧
    (package_zip "JOBS" "j9" (.dir "out" [c9_sub])).2 =
      (all_files (payload_root (.dir "out" [c9_sub]))).filter
        (fun n => (path_suffix n).toLower = ".mp3") :=
  ⟨(C9_packaging "JOBS" "j9" "out" [c9_sub]).1 c9_sub rfl,
   (C9_packaging "JOBS" "j9" "out" []).2.1 (by decide),
   (C9_packaging "JOBS" "j9" "out" [c9_sub]).2.2.2⟩

/-- Helper: pairing a list with its image under `f` pairs each element
with its own image. -/
theorem snd_eq_of_mem_zip_map {α : Type} (f : α → α) :
    ∀ (l : List α), ∀ p ∈ l.zip (l.map f), p.2 = f p.1 := by
  intro l
  induction l with
  | nil => intro p hp; cases hp
  | cons a l ih =>
      intro p hp
      rw [List.map_cons, List.zip_cons_cons] at hp
      rcases List.mem_cons.mp hp with h | h
      · rw [h]
      · exact ih p h

/-- C10: `resume_item` removes the index from the job's paused-items set
and flips exactly the matching items from `paused` to `pending`, leaving
items in any other status unchanged; it modifies no other item field — in
particular each item's previously stored progress value is exactly
preserved. -/
theorem C10_resume_item_frame (now : ℚ) (job : JobState) (item_index : Int) :
    (resume_item now job item_index).paused_items = job.paused_items.erase item_index ∧
    (resume_item now job item_index).download_items.length = job.download_items.length ∧
    ∀ p ∈ job.download_items.zip (resume_item now job item_index).download_items,
      p.2.index = p.1.index ∧ p.2.title = p.1.title ∧ p.2.url = p.1.url ∧
      p.2.thumbnail = p.1.thumbnail ∧ p.2.progress = p.1.progress ∧
      p.2.error_msg = p.1.error_msg ∧
      p.2.status =
        (if p.1.index = item_index ∧ p.1.status = "paused" then "pending" else p.1.status) := by
  refine ⟨rfl, by simp [resume_item], ?_⟩
  intro p hp
  have hp' : p ∈ job.download_items.zip
      (job.download_items.map (fun it =>
        if it.index = item_index ∧ it.status = "paused" then
          { it with status := "pending" } else it)) := hp
  have h2 := snd_eq_of_mem_zip_map _ job.download_items p hp'
  rw [h2]
  by_cases hc : p.1.index = item_index ∧ p.1.status = "paused"
  · rw [if_pos hc, if_pos hc]
    exact ⟨rfl, rfl, rfl, rfl, rfl, rfl, rfl⟩
  · rw [if_neg hc, if_neg hc]
    exact ⟨rfl, rfl, rfl, rfl, rfl, rfl, rfl⟩

/-- A job with one `done` and one `paused` item (the latter's 1-based
index individually paused), for the C10 witness. -/
def c10_job : JobState :=
  { id := "j10", url := "https://www.youtube.com/playlist?list=PL3", status := "running",
    total_items := some 2, paused_items := {2},
    download_items :=
      [{ index := 1, title := "a", url := "ua", status := "done", progress := 100 },
       { index := 2, title := "b", url := "ub", status := "paused", progress := 30 }] }

/-- The second item of `c10_job` paired with its post-resume form. -/
def c10_pair : DownloadItem × DownloadItem :=
  ({ index := 2, title := "b", url := "ub", status := "paused", progress := 30 },
   { index := 2, title := "b", url := "ub", status := "pending", progress := 30 })

/-- Witness for C10 at a concrete job: resuming item 2 erases it from the
paused set and the paused item goes back to `pending` with every other
field — progress included — unchanged. -/
theorem C10_resume_item_frame_witness :
    (resume_item 7 c10_job 2).paused_items = c10_job.paused_items.erase 2 ∧
    (c10_pair.2.index = c10_pair.1.index ∧ c10_pair.2.title = c10_pair.1.title ∧
     c10_pair.2.url = c10_pair.1.url ∧ c10_pair.2.thumbnail = c10_pair.1.thumbnail ∧
     c10_pair.2.progress = c10_pair.1.progress ∧
     c10_pair.2.error_msg = c10_pair.1.error_msg ∧
     c10_pair.2.status =
       (if c10_pair.1.index = 2 ∧ c10_pair.1.status = "paused" then "pending"
        else c10_pair.1.status)) :=
  ⟨(C10_resume_item_frame 7 c10_job 2).1,
   (C10_resume_item_frame 7 c10_job 2).2.2 c10_pair (by decide)⟩

end Mp3DL
